import Mathlib

/-!
Rotary knob widget (src/knobs.js)

A shallow embedding of the `RotaryKnob` class and of the knob manager of
`src/knobs.js`, and the properties of the specification proved over it.

Numbers. JavaScript numbers are modelled by exact rationals: every finite
double is a rational, and `+ - * /`, comparison, `Math.max`, `Math.min` and
`Math.round` are taken with their exact mathematical meaning (no rounding
error, no NaN, no infinity). A quotient whose divisor is zero is `0` in the
model whereas JavaScript yields NaN or an infinity; each theorem that depends
on a quotient carries the hypothesis that keeps the divisor away from zero
(`0 < snapInterval`, `minValue < maxValue`, `minAngle < maxAngle`).

Library functions. `Math.atan2` is not code of the repository: the methods
that call it take it as the parameter `atan2`, and the theorems hold for every
such function. `Math.sqrt(s) <= r` is modelled by its exact meaning
`0 ≤ r ∧ s ≤ r * r`; `RotaryKnob.isInside_iff_sqrt` relates it to `Real.sqrt`.

Angular domain. `minAngle` and `maxAngle` are fields written by the
constructor only, `-135 * (Math.PI / 180)` and `135 * (Math.PI / 180)`; the
theorems on an arbitrary knob state ask for `minAngle ≤ maxAngle` or
`minAngle < maxAngle`, which every constructed knob satisfies
(`RotaryKnob.constructor_angles`, `runCalls_sameConfig`).

Callbacks. A method that may call `this.onChange` returns, next to the new
knob, the list of arguments with which the callback was invoked; the owner of
the knob applies the body of the callback to its own state. The callbacks of
the repository do not touch the knobs. The external functions
`generateAndDisplay` and `setYearFromKnob` are recorded by the calls made to
them; `generateAndDisplay`, which the callbacks call without a guard, is taken
to be defined.
-/

namespace Knobs

/-! ## Library constants and functions -/

/-- Math.PI, the exact value of the double `3.141592653589793`. -/
def Math.PI : ℚ := 884279719003555 / 281474976710656

/-- Math.round: the nearest integer, a tie going toward plus infinity. -/
def Math.round (x : ℚ) : ℚ := ((⌊x + 1 / 2⌋ : ℤ) : ℚ)

/-! ## class RotaryKnob -/

/-- The fields of a `RotaryKnob` instance. `onChange` records whether a
callback was supplied (the truthiness tested before the call). -/
structure RotaryKnob where
  x : ℚ
  y : ℚ
  radius : ℚ
  minValue : ℚ
  maxValue : ℚ
  snapInterval : ℚ
  onChange : Bool
  currentValue : ℚ
  angle : ℚ
  isDragging : Bool
  minAngle : ℚ
  maxAngle : ℚ

namespace RotaryKnob

/-- The constructor (knobs.js lines 2-17). -/
def constructor (x y radius minValue maxValue snapInterval : ℚ) (onChange : Bool) :
    RotaryKnob :=
  { x := x
    y := y
    radius := radius
    minValue := minValue
    maxValue := maxValue
    snapInterval := snapInterval
    onChange := onChange
    currentValue := minValue
    angle := 0
    isDragging := false
    minAngle := -135 * (Math.PI / 180)
    maxAngle := 135 * (Math.PI / 180) }

/-- Method isInside (lines 19-23): `Math.sqrt(dx * dx + dy * dy) <= this.radius`,
the comparison with the square root taken exactly. -/
def isInside (k : RotaryKnob) (mouseX mouseY : ℚ) : Bool :=
  let dx := mouseX - k.x
  let dy := mouseY - k.y
  decide (0 ≤ k.radius ∧ dx * dx + dy * dy ≤ k.radius * k.radius)

/-- Lines 41-42: the two guarded assignments that bring the pointer angle
into the angular domain. -/
def clampAngle (k : RotaryKnob) (angle : ℚ) : ℚ :=
  let angle := if angle < k.minAngle then k.minAngle else angle
  if angle > k.maxAngle then k.maxAngle else angle

/-- Lines 46-48: `normalizedAngle`, `rawValue` and `snappedValue` for an
angle that has been clamped. -/
def snappedValue (k : RotaryKnob) (angle : ℚ) : ℚ :=
  let normalizedAngle := (angle - k.minAngle) / (k.maxAngle - k.minAngle)
  let rawValue := k.minValue + normalizedAngle * (k.maxValue - k.minValue)
  Math.round (rawValue / k.snapInterval) * k.snapInterval

/-- The expression `Math.max(this.minValue, Math.min(this.maxValue, v))` of
lines 51 and 63. -/
def clampValue (k : RotaryKnob) (v : ℚ) : ℚ :=
  max k.minValue (min k.maxValue v)

/-- Method updateFromMouse (lines 34-56). The second component lists the
arguments of the calls made to `onChange`. -/
def updateFromMouse (atan2 : ℚ → ℚ → ℚ) (k : RotaryKnob) (mouseX mouseY : ℚ) :
    RotaryKnob × List ℚ :=
  if !k.isDragging then (k, [])
  else
    let dx := mouseX - k.x
    let dy := mouseY - k.y
    let angle := k.clampAngle (atan2 dy dx)
    let k1 := { k with angle := angle }
    let snapped := k1.snappedValue angle
    if snapped ≠ k1.currentValue then
      let k2 := { k1 with currentValue := k1.clampValue snapped }
      if k2.onChange then (k2, [k2.currentValue]) else (k2, [])
    else (k1, [])

/-- Method startDrag (lines 25-32): the returned boolean, the knob afterwards
and the callback invocations. -/
def startDrag (atan2 : ℚ → ℚ → ℚ) (k : RotaryKnob) (mouseX mouseY : ℚ) :
    Bool × RotaryKnob × List ℚ :=
  if k.isInside mouseX mouseY then
    let r := updateFromMouse atan2 { k with isDragging := true } mouseX mouseY
    (true, r.1, r.2)
  else (false, k, [])

/-- Method stopDrag (lines 58-60). -/
def stopDrag (k : RotaryKnob) : RotaryKnob :=
  { k with isDragging := false }

/-- Method setValue (lines 62-66). -/
def setValue (k : RotaryKnob) (value : ℚ) : RotaryKnob :=
  let k1 := { k with currentValue := k.clampValue value }
  let normalizedValue := (k1.currentValue - k1.minValue) / (k1.maxValue - k1.minValue)
  { k1 with angle := k1.minAngle + normalizedValue * (k1.maxAngle - k1.minAngle) }

end RotaryKnob

/-- The table LENGTH_OPTIONS (lines 104-108): label, min and max of an option;
`none` stands for `undefined`, the result of a lookup with any other key. -/
def LENGTH_OPTIONS (option : ℚ) : Option (String × ℚ × ℚ) :=
  if option = 0 then some ("SMALL", 10, 20)
  else if option = 1 then some ("MEDIUM", 20, 35)
  else if option = 2 then some ("LARGE", 35, 50)
  else none

/-- The module-level variables of knobs.js together with the parts of the page
the handlers write. `generateAndDisplay` and `setYearFromKnob` are external
functions: the model records the calls made to them. Canvas drawing and the
CSS classes are left out; nothing in knobs.js reads them back. -/
structure App where
  yearKnob : RotaryKnob
  lengthKnob : RotaryKnob
  currentMinWords : ℚ
  currentMaxWords : ℚ
  windowCurrentMinWords : Option ℚ
  windowCurrentMaxWords : Option ℚ
  systemPowered : Bool
  /-- whether the element `year-display` is found by updateYearDisplay -/
  hasYearDisplay : Bool
  /-- its textContent as last written by updateYearDisplay -/
  yearDisplay : Option ℚ
  /-- whether `typeof setYearFromKnob` is the string function -/
  hasSetYearFromKnob : Bool
  /-- the arguments of the calls to setYearFromKnob, latest first -/
  setYearFromKnobCalls : List ℚ
  /-- the number of calls to generateAndDisplay -/
  generateAndDisplayCalls : ℕ
  /-- whether `knobCanvas.style.pointerEvents` is auto rather than none -/
  pointerEventsAuto : Bool
  hasKnob1Img : Bool
  hasKnob2Img : Bool
  /-- the rotation in degrees written to the two images by updateKnobImages -/
  knob1Rotate : Option ℚ
  knob2Rotate : Option ℚ

/-- The rectangle returned by `interfaceContainer.getBoundingClientRect()`. -/
structure Rect where
  left : ℚ
  top : ℚ
  width : ℚ
  height : ℚ

/-- The fields of a mouse event the handlers read. -/
structure MouseEvent where
  clientX : ℚ
  clientY : ℚ

/-- Function updateKnobImages (lines 208-222). -/
def updateKnobImages (s : App) : App :=
  let s1 := if s.hasKnob1Img then
      { s with knob1Rotate := some (s.yearKnob.angle * (180 / Math.PI)) } else s
  if s1.hasKnob2Img then
    { s1 with knob2Rotate := some (s1.lengthKnob.angle * (180 / Math.PI)) } else s1

/-- Function drawKnobs (lines 201-206); the canvas itself is not modelled. -/
def drawKnobs (s : App) : App := updateKnobImages s

/-- Function updateYearDisplay (lines 224-229). -/
def updateYearDisplay (s : App) (year : ℚ) : App :=
  if s.hasYearDisplay then { s with yearDisplay := some year } else s

/-- Function updateSentenceLength (lines 234-240). -/
def updateSentenceLength (s : App) (min max : ℚ) : App :=
  { s with
    currentMinWords := min
    currentMaxWords := max
    windowCurrentMinWords := some min
    windowCurrentMaxWords := some max }

/-- Function updateMarkovWeights (lines 242-246). -/
def updateMarkovWeights (s : App) (year : ℚ) : App :=
  if s.hasSetYearFromKnob then
    { s with setYearFromKnobCalls := year :: s.setYearFromKnobCalls } else s

/-- The external function generateAndDisplay: one more call recorded. -/
def generateAndDisplay (s : App) : App :=
  { s with generateAndDisplayCalls := s.generateAndDisplayCalls + 1 }

/-- The callback of the year knob (lines 304-310, the definition of initKnobs
that is in force). -/
def yearOnChange (s : App) (year : ℚ) : App :=
  if !s.systemPowered then s
  else generateAndDisplay (updateMarkovWeights (updateYearDisplay s year) year)

/-- The callback of the length knob (lines 318-324). The boolean is true when
the callback ended in a TypeError, `length.label` being read on `undefined`;
nothing has been written at that point. -/
def lengthOnChange (s : App) (option : ℚ) : App × Bool :=
  if !s.systemPowered then (s, false)
  else
    match LENGTH_OPTIONS option with
    | none => (s, true)
    | some length => (generateAndDisplay (updateSentenceLength s length.2.1 length.2.2), false)

/-- The year callback run on the invocations a knob method reports. -/
def fireYear (s : App) (calls : List ℚ) : App :=
  calls.foldl yearOnChange s

/-- The length callback run on the invocations a knob method reports; it stops
at the first one that throws. -/
def fireLength (s : App) : List ℚ → App × Bool
  | [] => (s, false)
  | v :: vs =>
    let r := lengthOnChange s v
    if r.2 then r else fireLength r.1 vs

/-- Function handleMouseDown (lines 166-178). An exception thrown by the
length callback leaves the handler at once. -/
def handleMouseDown (atan2 : ℚ → ℚ → ℚ) (rect : Rect) (e : MouseEvent) (s : App) : App :=
  let scaleX := 1920 / rect.width
  let scaleY := 1080 / rect.height
  let x := (e.clientX - rect.left) * scaleX
  let y := (e.clientY - rect.top) * scaleY
  let r1 := s.yearKnob.startDrag atan2 x y
  let s1 := fireYear { s with yearKnob := r1.2.1 } r1.2.2
  if r1.1 then drawKnobs { s1 with pointerEventsAuto := true }
  else
    let r2 := s1.lengthKnob.startDrag atan2 x y
    let r3 := fireLength { s1 with lengthKnob := r2.2.1 } r2.2.2
    if r3.2 then r3.1
    else if r2.1 then drawKnobs { r3.1 with pointerEventsAuto := true }
    else r3.1

/-- Function handleMouseMove (lines 180-193). -/
def handleMouseMove (atan2 : ℚ → ℚ → ℚ) (rect : Rect) (e : MouseEvent) (s : App) : App :=
  if !s.yearKnob.isDragging && !s.lengthKnob.isDragging then s
  else
    let scaleX := 1920 / rect.width
    let scaleY := 1080 / rect.height
    let x := (e.clientX - rect.left) * scaleX
    let y := (e.clientY - rect.top) * scaleY
    let r1 := s.yearKnob.updateFromMouse atan2 x y
    let s1 := fireYear { s with yearKnob := r1.1 } r1.2
    let r2 := s1.lengthKnob.updateFromMouse atan2 x y
    let r3 := fireLength { s1 with lengthKnob := r2.1 } r2.2
    if r3.2 then r3.1 else drawKnobs r3.1

/-- Function handleMouseUp (lines 195-199). -/
def handleMouseUp (s : App) : App :=
  { s with
    yearKnob := s.yearKnob.stopDrag
    lengthKnob := s.lengthKnob.stopDrag
    pointerEventsAuto := false }

/-- The click listener of the power toggle (lines 258-281), without the CSS
classes. -/
def toggleClick (s : App) : App :=
  let s1 := { s with systemPowered := !s.systemPowered }
  if s1.systemPowered then generateAndDisplay s1 else s1

/-- Function initKnobs, the second definition (lines 285-343), which replaces
the first, on a page described by the four presence flags: the state once the
listeners are installed. -/
def initKnobs (hasYearDisplay hasSetYearFromKnob hasKnob1Img hasKnob2Img : Bool) : App :=
  drawKnobs
    { yearKnob := (RotaryKnob.constructor 1399 254 30 2010 2125 1 true).setValue 2025
      lengthKnob := (RotaryKnob.constructor 1399 400 30 0 2 1 true).setValue 1
      currentMinWords := 20
      currentMaxWords := 35
      windowCurrentMinWords := none
      windowCurrentMaxWords := none
      systemPowered := false
      hasYearDisplay := hasYearDisplay
      yearDisplay := none
      hasSetYearFromKnob := hasSetYearFromKnob
      setYearFromKnobCalls := []
      generateAndDisplayCalls := 0
      pointerEventsAuto := false
      hasKnob1Img := hasKnob1Img
      hasKnob2Img := hasKnob2Img
      knob1Rotate := none
      knob2Rotate := none }

/-- A pointer event delivered to the page. -/
inductive PointerEvent where
  | down (rect : Rect) (e : MouseEvent)
  | move (rect : Rect) (e : MouseEvent)
  | up

/-- The handler that the page runs for a pointer event. -/
def PointerEvent.handle (atan2 : ℚ → ℚ → ℚ) (s : App) : PointerEvent → App
  | .down rect e => handleMouseDown atan2 rect e s
  | .move rect e => handleMouseMove atan2 rect e s
  | .up => handleMouseUp s

/-- The state after a sequence of pointer events, first event first. -/
def runEvents (atan2 : ℚ → ℚ → ℚ) (s : App) (events : List PointerEvent) : App :=
  events.foldl (PointerEvent.handle atan2) s

/-- The downstream state that the knob callbacks write: the sentence-length
bounds and their mirror on `window`, the year display, the calls to
setYearFromKnob and the calls to generateAndDisplay. -/
def App.downstream (s : App) :
    ℚ × ℚ × Option ℚ × Option ℚ × Option ℚ × List ℚ × ℕ :=
  (s.currentMinWords, s.currentMaxWords, s.windowCurrentMinWords, s.windowCurrentMaxWords,
    s.yearDisplay, s.setYearFromKnobCalls, s.generateAndDisplayCalls)

/-- A container rectangle displayed at the logical resolution, so that both
scale factors are 1. -/
def fullRect : Rect := { left := 0, top := 0, width := 1920, height := 1080 }

/-- The two knobs of the manager, year knob first. -/
def App.knobs (s : App) : RotaryKnob × RotaryKnob := (s.yearKnob, s.lengthKnob)

/-- The canvas point that handleMouseDown and handleMouseMove compute from an
event (lines 167-172 and 183-188). -/
def canvasPoint (rect : Rect) (e : MouseEvent) : ℚ × ℚ :=
  ((e.clientX - rect.left) * (1920 / rect.width), (e.clientY - rect.top) * (1080 / rect.height))

/-- The two knobs after a pointer event when only the methods of the class
are followed and the callbacks are ignored: the year knob is offered a
pointer-down first, the length knob only when the year knob refuses. -/
def knobsAfter (atan2 : ℚ → ℚ → ℚ) (ks : RotaryKnob × RotaryKnob) :
    PointerEvent → RotaryKnob × RotaryKnob
  | .down rect e =>
    let p := canvasPoint rect e
    if (ks.1.startDrag atan2 p.1 p.2).1 then ((ks.1.startDrag atan2 p.1 p.2).2.1, ks.2)
    else ((ks.1.startDrag atan2 p.1 p.2).2.1, (ks.2.startDrag atan2 p.1 p.2).2.1)
  | .move rect e =>
    let p := canvasPoint rect e
    if !ks.1.isDragging && !ks.2.isDragging then ks
    else ((ks.1.updateFromMouse atan2 p.1 p.2).1, (ks.2.updateFromMouse atan2 p.1 p.2).1)
  | .up => (ks.1.stopDrag, ks.2.stopDrag)

/-! ## Specification-side definitions -/

/-- The clamp of the specification: `v` brought into `[lo, hi]`. -/
def Spec.clamp (v lo hi : ℚ) : ℚ := max lo (min hi v)

/-- A value that is an integer multiple of the quantization step. -/
def IsMultiple (step v : ℚ) : Prop := ∃ n : ℤ, v = n * step

/-- A sample of `Math.atan2` on the four half-axes, where the double result is
`0`, `Math.PI / 2`, `-Math.PI / 2` or `Math.PI`; off the axes it is `0` and is
not meant to be used. It instantiates the examples. -/
def axisAtan2 (dy dx : ℚ) : ℚ :=
  if dy = 0 then (if 0 ≤ dx then 0 else Math.PI)
  else if dx = 0 then (if 0 < dy then Math.PI / 2 else -(Math.PI / 2))
  else 0

/-- Two knobs with the same configuration: every field but the current value,
the angle and the drag flag. -/
def RotaryKnob.SameConfig (k k1 : RotaryKnob) : Prop :=
  k1.x = k.x ∧ k1.y = k.y ∧ k1.radius = k.radius ∧ k1.minValue = k.minValue ∧
    k1.maxValue = k.maxValue ∧ k1.snapInterval = k.snapInterval ∧ k1.onChange = k.onChange ∧
    k1.minAngle = k.minAngle ∧ k1.maxAngle = k.maxAngle

theorem Math.PI_pos : 0 < Math.PI := by
  unfold Math.PI; norm_num

theorem Math.round_intCast (n : ℤ) : Math.round (n : ℚ) = n := by
  unfold Math.round
  have h : ⌊(n : ℚ) + 1 / 2⌋ = n := by
    rw [Int.floor_eq_iff]
    constructor
    · linarith
    · linarith
  rw [h]

theorem Math.round_mono {a b : ℚ} (h : a ≤ b) : Math.round a ≤ Math.round b := by
  unfold Math.round
  exact_mod_cast Int.floor_mono (by linarith : a + 1 / 2 ≤ b + 1 / 2)

namespace RotaryKnob

theorem clampValue_of_mem (k : RotaryKnob) (v : ℚ) (h1 : k.minValue ≤ v)
    (h2 : v ≤ k.maxValue) : k.clampValue v = v := by
  unfold clampValue
  rw [min_eq_right h2, max_eq_right h1]

theorem clampAngle_eq (k : RotaryKnob) (a : ℚ) (h : k.minAngle ≤ k.maxAngle) :
    k.clampAngle a = Spec.clamp a k.minAngle k.maxAngle := by
  unfold clampAngle Spec.clamp
  by_cases h1 : a < k.minAngle
  · have h2 : ¬ k.minAngle > k.maxAngle := not_lt.mpr h
    simp only [h1, if_true, h2, if_false]
    rw [min_eq_right (le_trans h1.le h), max_eq_left h1.le]
  · simp only [h1, if_false]
    by_cases h2 : a > k.maxAngle
    · simp only [h2, if_true]
      rw [min_eq_left h2.le, max_eq_right h]
    · simp only [h2, if_false]
      rw [min_eq_right (not_lt.mp h2), max_eq_right (not_lt.mp h1)]

theorem clampAngle_mem (k : RotaryKnob) (a : ℚ) (h : k.minAngle ≤ k.maxAngle) :
    k.minAngle ≤ k.clampAngle a ∧ k.clampAngle a ≤ k.maxAngle := by
  rw [clampAngle_eq k a h]
  unfold Spec.clamp
  exact ⟨le_max_left _ _, max_le h (min_le_left _ _)⟩

theorem clampAngle_of_mem (k : RotaryKnob) (a : ℚ) (h1 : k.minAngle ≤ a)
    (h2 : a ≤ k.maxAngle) : k.clampAngle a = a := by
  unfold clampAngle
  simp [not_lt.mpr h1, not_lt.mpr h2]

/-- The knob that updateFromMouse leaves behind, in closed form. -/
theorem updateFromMouse_fst (atan2 : ℚ → ℚ → ℚ) (k : RotaryKnob) (mx my : ℚ) :
    (k.updateFromMouse atan2 mx my).1 =
      if k.isDragging then
        { k with
          angle := k.clampAngle (atan2 (my - k.y) (mx - k.x))
          currentValue :=
            if k.snappedValue (k.clampAngle (atan2 (my - k.y) (mx - k.x))) ≠ k.currentValue
            then k.clampValue (k.snappedValue (k.clampAngle (atan2 (my - k.y) (mx - k.x))))
            else k.currentValue }
      else k := by
  unfold updateFromMouse
  cases hd : k.isDragging
  · simp
  · simp only [Bool.not_true, Bool.false_eq_true, if_false, if_true]
    by_cases hs : k.snappedValue (k.clampAngle (atan2 (my - k.y) (mx - k.x))) = k.currentValue
    · simp [snappedValue, clampValue] at hs ⊢
      simp [hs]
    · cases hc : k.onChange <;> simp [snappedValue, clampValue, hc] at hs ⊢ <;> simp [hs]

/-- The value updateFromMouse leaves in a drag-active knob whose value was in
the domain: the clamped snapped value of the clamped pointer angle. -/
theorem updateFromMouse_currentValue (atan2 : ℚ → ℚ → ℚ) (k : RotaryKnob) (mx my : ℚ)
    (hdrag : k.isDragging = true) (hlo : k.minValue ≤ k.currentValue)
    (hhi : k.currentValue ≤ k.maxValue) :
    (k.updateFromMouse atan2 mx my).1.currentValue =
      k.clampValue (k.snappedValue (k.clampAngle (atan2 (my - k.y) (mx - k.x)))) := by
  rw [updateFromMouse_fst, if_pos hdrag]
  by_cases hs : k.snappedValue (k.clampAngle (atan2 (my - k.y) (mx - k.x))) = k.currentValue
  · simp only [ne_eq, hs, not_true_eq_false, if_false]
    rw [clampValue_of_mem k _ hlo hhi]
  · simp only [ne_eq, hs, not_false_eq_true, if_true]

end RotaryKnob

theorem Math.round_eq_of (x : ℚ) (n : ℤ) (h1 : (n : ℚ) ≤ x + 1 / 2) (h2 : x + 1 / 2 < n + 1) :
    Math.round x = n := by
  unfold Math.round
  have h : ⌊x + 1 / 2⌋ = n := by
    rw [Int.floor_eq_iff]
    exact ⟨h1, h2⟩
  rw [h]

namespace RotaryKnob

theorem SameConfig.refl (k : RotaryKnob) : k.SameConfig k :=
  ⟨rfl, rfl, rfl, rfl, rfl, rfl, rfl, rfl, rfl⟩

theorem SameConfig.trans {a b c : RotaryKnob} (h1 : a.SameConfig b) (h2 : b.SameConfig c) :
    a.SameConfig c := by
  obtain ⟨a1, a2, a3, a4, a5, a6, a7, a8, a9⟩ := h1
  obtain ⟨b1, b2, b3, b4, b5, b6, b7, b8, b9⟩ := h2
  exact ⟨b1.trans a1, b2.trans a2, b3.trans a3, b4.trans a4, b5.trans a5, b6.trans a6,
    b7.trans a7, b8.trans a8, b9.trans a9⟩

theorem updateFromMouse_sameConfig (atan2 : ℚ → ℚ → ℚ) (k : RotaryKnob) (mx my : ℚ) :
    k.SameConfig (k.updateFromMouse atan2 mx my).1 := by
  rw [updateFromMouse_fst]
  split
  · exact ⟨rfl, rfl, rfl, rfl, rfl, rfl, rfl, rfl, rfl⟩
  · exact SameConfig.refl k

theorem updateFromMouse_isDragging (atan2 : ℚ → ℚ → ℚ) (k : RotaryKnob) (mx my : ℚ) :
    (k.updateFromMouse atan2 mx my).1.isDragging = k.isDragging := by
  rw [updateFromMouse_fst]
  split <;> rfl

theorem startDrag_sameConfig (atan2 : ℚ → ℚ → ℚ) (k : RotaryKnob) (mx my : ℚ) :
    k.SameConfig (k.startDrag atan2 mx my).2.1 := by
  unfold startDrag
  split
  · exact updateFromMouse_sameConfig atan2 { k with isDragging := true } mx my
  · exact SameConfig.refl k

theorem setValue_sameConfig (k : RotaryKnob) (v : ℚ) : k.SameConfig (k.setValue v) :=
  ⟨rfl, rfl, rfl, rfl, rfl, rfl, rfl, rfl, rfl⟩

theorem snappedValue_mono (k : RotaryKnob) {a b : ℚ} (hmm : k.minValue ≤ k.maxValue)
    (hstep : 0 < k.snapInterval) (hang : k.minAngle < k.maxAngle) (hab : a ≤ b) :
    k.snappedValue a ≤ k.snappedValue b := by
  unfold snappedValue
  have hd : 0 < k.maxAngle - k.minAngle := by linarith
  have hw : 0 ≤ k.maxValue - k.minValue := by linarith
  have h1 : (a - k.minAngle) / (k.maxAngle - k.minAngle) ≤
      (b - k.minAngle) / (k.maxAngle - k.minAngle) :=
    div_le_div_of_nonneg_right (by linarith) hd.le
  have h2 : k.minValue + (a - k.minAngle) / (k.maxAngle - k.minAngle) * (k.maxValue - k.minValue)
      ≤ k.minValue + (b - k.minAngle) / (k.maxAngle - k.minAngle) * (k.maxValue - k.minValue) :=
    add_le_add_left (mul_le_mul_of_nonneg_right h1 hw) _
  exact mul_le_mul_of_nonneg_right
    (Math.round_mono (div_le_div_of_nonneg_right h2 hstep.le)) hstep.le

end RotaryKnob

namespace RotaryKnob

/-- The callback invocations of updateFromMouse, in closed form. -/
theorem updateFromMouse_snd (atan2 : ℚ → ℚ → ℚ) (k : RotaryKnob) (mx my : ℚ) :
    (k.updateFromMouse atan2 mx my).2 =
      if k.isDragging = true ∧ k.onChange = true ∧
          k.snappedValue (k.clampAngle (atan2 (my - k.y) (mx - k.x))) ≠ k.currentValue
      then [k.clampValue (k.snappedValue (k.clampAngle (atan2 (my - k.y) (mx - k.x))))]
      else [] := by
  unfold updateFromMouse
  cases hd : k.isDragging
  · simp
  · simp only [Bool.not_true, Bool.false_eq_true, if_false, true_and]
    by_cases hs : k.snappedValue (k.clampAngle (atan2 (my - k.y) (mx - k.x))) = k.currentValue
    · simp [snappedValue, clampValue] at hs ⊢
      simp [hs]
    · cases hc : k.onChange <;> simp [snappedValue, clampValue, hc] at hs ⊢ <;> simp [hs]

/-- At the upper end of the angular domain the raw value is the maximum. -/
theorem snappedValue_maxAngle (k : RotaryKnob) (hang : k.minAngle < k.maxAngle) :
    k.snappedValue k.maxAngle = Math.round (k.maxValue / k.snapInterval) * k.snapInterval := by
  unfold snappedValue
  have hd : k.maxAngle - k.minAngle ≠ 0 := by
    intro h; linarith
  have e : k.minValue + (k.maxAngle - k.minAngle) / (k.maxAngle - k.minAngle) *
      (k.maxValue - k.minValue) = k.maxValue := by
    rw [div_self hd]; ring
  simp only [e]

/-- Inside the hit area startDrag is updateFromMouse on the knob with the
drag flag set. -/
theorem startDrag_of_isInside (atan2 : ℚ → ℚ → ℚ) (k : RotaryKnob) (mx my : ℚ)
    (h : k.isInside mx my = true) :
    k.startDrag atan2 mx my =
      (true, (({ k with isDragging := true } : RotaryKnob).updateFromMouse atan2 mx my).1,
        (({ k with isDragging := true } : RotaryKnob).updateFromMouse atan2 mx my).2) := by
  unfold startDrag
  rw [if_pos h]

/-- A drag-active knob with a callback whose snapped value differs from the
current value stores the clamped snapped value and calls back with it. -/
theorem updateFromMouse_of_ne (atan2 : ℚ → ℚ → ℚ) (k : RotaryKnob) (mx my : ℚ)
    (hd : k.isDragging = true) (hc : k.onChange = true)
    (hne : k.snappedValue (k.clampAngle (atan2 (my - k.y) (mx - k.x))) ≠ k.currentValue) :
    (k.updateFromMouse atan2 mx my).1.currentValue =
        k.clampValue (k.snappedValue (k.clampAngle (atan2 (my - k.y) (mx - k.x)))) ∧
      (k.updateFromMouse atan2 mx my).2 =
        [k.clampValue (k.snappedValue (k.clampAngle (atan2 (my - k.y) (mx - k.x))))] := by
  constructor
  · rw [updateFromMouse_fst, if_pos hd]
    simp only [if_pos hne]
  · rw [updateFromMouse_snd, if_pos ⟨hd, hc, hne⟩]

/-- Outside the hit area startDrag does nothing. -/
theorem startDrag_of_not_isInside (atan2 : ℚ → ℚ → ℚ) (k : RotaryKnob) (mx my : ℚ)
    (h : k.isInside mx my = false) : k.startDrag atan2 mx my = (false, k, []) := by
  unfold startDrag
  rw [h]
  rfl

end RotaryKnob

namespace RotaryKnob

/-- When both edges of the value domain are multiples of the step, the snapped
value of an angle of the angular domain lies in the value domain. -/
theorem snappedValue_mem_of_aligned (k : RotaryKnob) (a : ℚ)
    (hmm : k.minValue ≤ k.maxValue) (hstep : 0 < k.snapInterval)
    (hang : k.minAngle < k.maxAngle)
    (hmin : IsMultiple k.snapInterval k.minValue) (hmax : IsMultiple k.snapInterval k.maxValue)
    (h1 : k.minAngle ≤ a) (h2 : a ≤ k.maxAngle) :
    k.minValue ≤ k.snappedValue a ∧ k.snappedValue a ≤ k.maxValue := by
  have hs : k.snapInterval ≠ 0 := ne_of_gt hstep
  have elo : k.snappedValue k.minAngle = k.minValue := by
    obtain ⟨n, hn⟩ := hmin
    have hq : k.minValue / k.snapInterval = n := by
      rw [hn]; field_simp
    unfold snappedValue
    simp only [sub_self, zero_div, zero_mul, add_zero]
    rw [hq, Math.round_intCast, ← hn]
  have ehi : k.snappedValue k.maxAngle = k.maxValue := by
    obtain ⟨n, hn⟩ := hmax
    have hq : k.maxValue / k.snapInterval = n := by
      rw [hn]; field_simp
    rw [snappedValue_maxAngle k hang, hq, Math.round_intCast, ← hn]
  constructor
  · rw [← elo]; exact snappedValue_mono k hmm hstep hang h1
  · rw [← ehi]; exact snappedValue_mono k hmm hstep hang h2

/-- Where the edge-triggered callback of claim C4 does hold: for a drag-active
knob with a callback whose domain edges are both multiples of the step, the
callback is invoked, once and with the new value, exactly when the value
changes. -/
theorem updateFromMouse_edge_triggered_of_aligned (atan2 : ℚ → ℚ → ℚ) (k : RotaryKnob)
    (mx my : ℚ) (hmm : k.minValue ≤ k.maxValue) (hstep : 0 < k.snapInterval)
    (hang : k.minAngle < k.maxAngle)
    (hmin : IsMultiple k.snapInterval k.minValue) (hmax : IsMultiple k.snapInterval k.maxValue)
    (hdrag : k.isDragging = true) (hcb : k.onChange = true) :
    (k.updateFromMouse atan2 mx my).2 =
      if (k.updateFromMouse atan2 mx my).1.currentValue ≠ k.currentValue
      then [(k.updateFromMouse atan2 mx my).1.currentValue] else [] := by
  obtain ⟨a1, a2⟩ := clampAngle_mem k (atan2 (my - k.y) (mx - k.x)) hang.le
  obtain ⟨v1, v2⟩ := snappedValue_mem_of_aligned k _ hmm hstep hang hmin hmax a1 a2
  have hcl := clampValue_of_mem k _ v1 v2
  by_cases hs : k.snappedValue (k.clampAngle (atan2 (my - k.y) (mx - k.x))) = k.currentValue
  · have e1 : (k.updateFromMouse atan2 mx my).1.currentValue = k.currentValue := by
      rw [updateFromMouse_fst, if_pos hdrag]
      simp only [ne_eq, hs, not_true_eq_false, if_false]
    rw [updateFromMouse_snd, e1]
    simp [hs]
  · obtain ⟨e1, e2⟩ := updateFromMouse_of_ne atan2 k mx my hdrag hcb hs
    rw [e2, e1, hcl, if_pos hs]

end RotaryKnob

/-! ## Lemmas on the knob manager -/

theorem drawKnobs_yearKnob (s : App) : (drawKnobs s).yearKnob = s.yearKnob := by
  cases h1 : s.hasKnob1Img <;> cases h2 : s.hasKnob2Img <;>
    simp [drawKnobs, updateKnobImages, h1, h2]

theorem drawKnobs_lengthKnob (s : App) : (drawKnobs s).lengthKnob = s.lengthKnob := by
  cases h1 : s.hasKnob1Img <;> cases h2 : s.hasKnob2Img <;>
    simp [drawKnobs, updateKnobImages, h1, h2]

theorem drawKnobs_downstream (s : App) : (drawKnobs s).downstream = s.downstream := by
  cases h1 : s.hasKnob1Img <;> cases h2 : s.hasKnob2Img <;>
    simp [drawKnobs, updateKnobImages, h1, h2, App.downstream]

theorem drawKnobs_systemPowered (s : App) : (drawKnobs s).systemPowered = s.systemPowered := by
  cases h1 : s.hasKnob1Img <;> cases h2 : s.hasKnob2Img <;>
    simp [drawKnobs, updateKnobImages, h1, h2]

theorem yearOnChange_yearKnob (s : App) (year : ℚ) :
    (yearOnChange s year).yearKnob = s.yearKnob := by
  cases h1 : s.systemPowered <;> cases h2 : s.hasYearDisplay <;>
    cases h3 : s.hasSetYearFromKnob <;>
    simp [yearOnChange, generateAndDisplay, updateMarkovWeights, updateYearDisplay, h1, h2, h3]

theorem yearOnChange_lengthKnob (s : App) (year : ℚ) :
    (yearOnChange s year).lengthKnob = s.lengthKnob := by
  cases h1 : s.systemPowered <;> cases h2 : s.hasYearDisplay <;>
    cases h3 : s.hasSetYearFromKnob <;>
    simp [yearOnChange, generateAndDisplay, updateMarkovWeights, updateYearDisplay, h1, h2, h3]

theorem fireYear_yearKnob (calls : List ℚ) (s : App) :
    (fireYear s calls).yearKnob = s.yearKnob := by
  induction calls generalizing s with
  | nil => rfl
  | cons v vs ih =>
    show (fireYear (yearOnChange s v) vs).yearKnob = s.yearKnob
    rw [ih, yearOnChange_yearKnob]

theorem fireYear_lengthKnob (calls : List ℚ) (s : App) :
    (fireYear s calls).lengthKnob = s.lengthKnob := by
  induction calls generalizing s with
  | nil => rfl
  | cons v vs ih =>
    show (fireYear (yearOnChange s v) vs).lengthKnob = s.lengthKnob
    rw [ih, yearOnChange_lengthKnob]

theorem lengthOnChange_yearKnob (s : App) (option : ℚ) :
    (lengthOnChange s option).1.yearKnob = s.yearKnob := by
  unfold lengthOnChange
  cases h1 : s.systemPowered
  · rfl
  · cases h2 : LENGTH_OPTIONS option <;> rfl

theorem lengthOnChange_lengthKnob (s : App) (option : ℚ) :
    (lengthOnChange s option).1.lengthKnob = s.lengthKnob := by
  unfold lengthOnChange
  cases h1 : s.systemPowered
  · rfl
  · cases h2 : LENGTH_OPTIONS option <;> rfl

theorem fireLength_yearKnob (calls : List ℚ) (s : App) :
    (fireLength s calls).1.yearKnob = s.yearKnob := by
  induction calls generalizing s with
  | nil => rfl
  | cons v vs ih =>
    unfold fireLength
    simp only
    split
    · exact lengthOnChange_yearKnob s v
    · rw [ih, lengthOnChange_yearKnob]

theorem fireLength_lengthKnob (calls : List ℚ) (s : App) :
    (fireLength s calls).1.lengthKnob = s.lengthKnob := by
  induction calls generalizing s with
  | nil => rfl
  | cons v vs ih =>
    unfold fireLength
    simp only
    split
    · exact lengthOnChange_lengthKnob s v
    · rw [ih, lengthOnChange_lengthKnob]

theorem fireYear_unpowered (calls : List ℚ) (s : App) (h : s.systemPowered = false) :
    fireYear s calls = s := by
  induction calls with
  | nil => rfl
  | cons v vs ih =>
    have e : yearOnChange s v = s := by
      unfold yearOnChange
      rw [h]; rfl
    show fireYear (yearOnChange s v) vs = s
    rw [e, ih]

theorem fireLength_unpowered (calls : List ℚ) (s : App) (h : s.systemPowered = false) :
    fireLength s calls = (s, false) := by
  induction calls with
  | nil => rfl
  | cons v vs ih =>
    have e : lengthOnChange s v = (s, false) := by
      unfold lengthOnChange
      rw [h]; rfl
    unfold fireLength
    simp only [e, Bool.false_eq_true, if_false]
    exact ih

/-- The knobs after handleMouseDown are those the methods of the class give
on their own, whatever the callbacks do. -/
theorem handleMouseDown_knobs (atan2 : ℚ → ℚ → ℚ) (rect : Rect) (e : MouseEvent) (s : App) :
    (handleMouseDown atan2 rect e s).knobs = knobsAfter atan2 s.knobs (.down rect e) := by
  unfold handleMouseDown knobsAfter App.knobs canvasPoint
  simp only
  split <;> [skip; split <;> [skip; split]] <;>
    simp only [drawKnobs_yearKnob, drawKnobs_lengthKnob, fireLength_yearKnob,
      fireLength_lengthKnob, fireYear_yearKnob, fireYear_lengthKnob]

/-- The knobs after handleMouseMove, likewise. -/
theorem handleMouseMove_knobs (atan2 : ℚ → ℚ → ℚ) (rect : Rect) (e : MouseEvent) (s : App) :
    (handleMouseMove atan2 rect e s).knobs = knobsAfter atan2 s.knobs (.move rect e) := by
  unfold handleMouseMove knobsAfter App.knobs canvasPoint
  simp only
  split <;> [skip; split] <;>
    simp only [drawKnobs_yearKnob, drawKnobs_lengthKnob, fireLength_yearKnob,
      fireLength_lengthKnob, fireYear_yearKnob, fireYear_lengthKnob]

/-- The knobs after any pointer event. -/
theorem handle_knobs (atan2 : ℚ → ℚ → ℚ) (s : App) (ev : PointerEvent) :
    (ev.handle atan2 s).knobs = knobsAfter atan2 s.knobs ev := by
  cases ev with
  | down rect e => exact handleMouseDown_knobs atan2 rect e s
  | move rect e => exact handleMouseMove_knobs atan2 rect e s
  | up => rfl

theorem runEvents_knobs (atan2 : ℚ → ℚ → ℚ) (events : List PointerEvent) (s : App) :
    (runEvents atan2 s events).knobs = events.foldl (knobsAfter atan2) s.knobs := by
  induction events generalizing s with
  | nil => rfl
  | cons ev evs ih =>
    show (runEvents atan2 (ev.handle atan2 s) evs).knobs = _
    rw [ih, handle_knobs]
    rfl

/-- While the system is not powered a pointer event leaves the downstream
state and the power flag as they are. -/
theorem handle_unpowered (atan2 : ℚ → ℚ → ℚ) (s : App) (ev : PointerEvent)
    (h : s.systemPowered = false) :
    (ev.handle atan2 s).downstream = s.downstream ∧ (ev.handle atan2 s).systemPowered = false := by
  cases ev with
  | down rect e =>
    show (handleMouseDown atan2 rect e s).downstream = s.downstream ∧
      (handleMouseDown atan2 rect e s).systemPowered = false
    unfold handleMouseDown
    simp only
    rw [fireYear_unpowered _ _ (by exact h)]
    split
    · rw [drawKnobs_downstream, drawKnobs_systemPowered]
      exact ⟨rfl, h⟩
    · rw [fireLength_unpowered _ _ (by exact h)]
      simp only [Bool.false_eq_true, if_false]
      split
      · rw [drawKnobs_downstream, drawKnobs_systemPowered]
        exact ⟨rfl, h⟩
      · exact ⟨rfl, h⟩
  | move rect e =>
    show (handleMouseMove atan2 rect e s).downstream = s.downstream ∧
      (handleMouseMove atan2 rect e s).systemPowered = false
    unfold handleMouseMove
    simp only
    split
    · exact ⟨rfl, h⟩
    · rw [fireYear_unpowered _ _ (by exact h), fireLength_unpowered _ _ (by exact h)]
      simp only [Bool.false_eq_true, if_false]
      rw [drawKnobs_downstream, drawKnobs_systemPowered]
      exact ⟨rfl, h⟩
  | up => exact ⟨rfl, h⟩

theorem runEvents_unpowered (atan2 : ℚ → ℚ → ℚ) (events : List PointerEvent) (s : App)
    (h : s.systemPowered = false) :
    (runEvents atan2 s events).downstream = s.downstream ∧
      (runEvents atan2 s events).systemPowered = false := by
  induction events generalizing s with
  | nil => exact ⟨rfl, h⟩
  | cons ev evs ih =>
    obtain ⟨h1, h2⟩ := handle_unpowered atan2 s ev h
    obtain ⟨h3, h4⟩ := ih (ev.handle atan2 s) h2
    exact ⟨h3.trans h1, h4⟩

/-! ## The claims on the knob widget -/

/-- Claim C4 fails on the code. A knob with domain [0, 2.5] and step 1 is
dragged from the point (-1, 0), whose angle Math.PI is clamped to the top of
the angular domain: the snapped value is 3, the stored value 2.5, and the
callback is called with 2.5. A second updateFromMouse at the same point
compares the unclamped 3 with 2.5 again: the value stays 2.5 and the callback
is called once more with 2.5. -/
theorem updateFromMouse_refires_at_clamped_edge :
    ((RotaryKnob.constructor 0 0 30 0 (5 / 2) 1 true).startDrag axisAtan2 (-1) 0).1 = true ∧
    ((RotaryKnob.constructor 0 0 30 0 (5 / 2) 1 true).startDrag axisAtan2 (-1) 0).2.1.isDragging
      = true ∧
    ((RotaryKnob.constructor 0 0 30 0 (5 / 2) 1 true).startDrag axisAtan2 (-1) 0).2.1.currentValue
      = 5 / 2 ∧
    ((RotaryKnob.constructor 0 0 30 0 (5 / 2) 1 true).startDrag axisAtan2 (-1) 0).2.2 = [5 / 2] ∧
    ((((RotaryKnob.constructor 0 0 30 0 (5 / 2) 1 true).startDrag axisAtan2 (-1) 0).2.1).updateFromMouse
      axisAtan2 (-1) 0).1.currentValue = 5 / 2 ∧
    ((((RotaryKnob.constructor 0 0 30 0 (5 / 2) 1 true).startDrag axisAtan2 (-1) 0).2.1).updateFromMouse
      axisAtan2 (-1) 0).2 = [5 / 2] := by
  have hpi := Math.PI_pos
  have hat : axisAtan2 ((0 : ℚ) - 0) (-1 - 0) = Math.PI := by
    norm_num [axisAtan2]
  have hin : (RotaryKnob.constructor 0 0 30 0 (5 / 2) 1 true).isInside (-1) 0 = true := by
    simp only [RotaryKnob.isInside, RotaryKnob.constructor, decide_eq_true_iff]
    norm_num
  -- every state of this knob maps the point to the snapped value 3, stored as 2.5
  have hsnap : ∀ k : RotaryKnob, (RotaryKnob.constructor 0 0 30 0 (5 / 2) 1 true).SameConfig k →
      k.snappedValue (k.clampAngle (axisAtan2 (0 - k.y) (-1 - k.x))) = 3 ∧
        k.clampValue 3 = 5 / 2 := by
    intro k hc
    obtain ⟨c1, c2, c3, c4, c5, c6, c7, c8, c9⟩ := hc
    have hx : k.x = 0 := c1
    have hy : k.y = 0 := c2
    have hmin : k.minValue = 0 := c4
    have hmax : k.maxValue = 5 / 2 := c5
    have hst : k.snapInterval = 1 := c6
    have hlo : k.minAngle = -135 * (Math.PI / 180) := c8
    have hhi : k.maxAngle = 135 * (Math.PI / 180) := c9
    have hcl : k.clampAngle Math.PI = k.maxAngle := by
      have g1 : ¬ (Math.PI < k.minAngle) := by rw [hlo]; intro h; linarith
      have g2 : Math.PI > k.maxAngle := by rw [hhi]; linarith
      simp only [RotaryKnob.clampAngle, g1, g2, if_false, if_true]
    rw [hx, hy, hat, hcl, RotaryKnob.snappedValue_maxAngle k (by rw [hlo, hhi]; linarith),
      hmax, hst]
    constructor
    · rw [Math.round_eq_of (5 / 2 / 1) 3 (by norm_num) (by norm_num)]
      norm_num
    · unfold RotaryKnob.clampValue
      rw [hmin, hmax]
      norm_num
  -- hence every drag-active state with a value other than 3 stores 2.5 and calls back
  have hupd : ∀ k : RotaryKnob, (RotaryKnob.constructor 0 0 30 0 (5 / 2) 1 true).SameConfig k →
      k.isDragging = true → k.currentValue ≠ 3 →
      (k.updateFromMouse axisAtan2 (-1) 0).1.currentValue = 5 / 2 ∧
        (k.updateFromMouse axisAtan2 (-1) 0).2 = [5 / 2] := by
    intro k hc hd hv
    obtain ⟨g1, g2⟩ := hsnap k hc
    have hne : k.snappedValue (k.clampAngle (axisAtan2 (0 - k.y) (-1 - k.x))) ≠ k.currentValue := by
      rw [g1]; exact fun h => hv h.symm
    have h := RotaryKnob.updateFromMouse_of_ne axisAtan2 k (-1) 0 hd hc.2.2.2.2.2.2.1 hne
    rw [g1, g2] at h
    exact h
  have h1 := hupd { RotaryKnob.constructor 0 0 30 0 (5 / 2) 1 true with isDragging := true }
    ⟨rfl, rfl, rfl, rfl, rfl, rfl, rfl, rfl, rfl⟩ rfl (by norm_num [RotaryKnob.constructor])
  have hstart := RotaryKnob.startDrag_of_isInside axisAtan2
    (RotaryKnob.constructor 0 0 30 0 (5 / 2) 1 true) (-1) 0 hin
  have hdrag1 : ((RotaryKnob.constructor 0 0 30 0 (5 / 2) 1 true).startDrag
      axisAtan2 (-1) 0).2.1.isDragging = true := by
    rw [hstart]
    exact RotaryKnob.updateFromMouse_isDragging axisAtan2 _ (-1) 0
  have hval1 : ((RotaryKnob.constructor 0 0 30 0 (5 / 2) 1 true).startDrag
      axisAtan2 (-1) 0).2.1.currentValue = 5 / 2 := by
    rw [hstart]; exact h1.1
  have h2 := hupd _ (RotaryKnob.startDrag_sameConfig axisAtan2
    (RotaryKnob.constructor 0 0 30 0 (5 / 2) 1 true) (-1) 0) hdrag1 (by rw [hval1]; norm_num)
  exact ⟨by rw [hstart], hdrag1, hval1, by rw [hstart]; exact h1.2, h2.1, h2.2⟩

/-- In every state of the year knob the pointer (1409, 254), on the positive
x axis through the centre, maps to 2068: angle 0, raw 2067.5, rounded up. -/
theorem yearKnob_value_right_of_centre (k : RotaryKnob)
    (hc : (RotaryKnob.constructor 1399 254 30 2010 2125 1 true).SameConfig k) :
    k.clampValue (k.snappedValue (k.clampAngle (axisAtan2 (254 - k.y) (1409 - k.x)))) = 2068 := by
  have hpi := Math.PI_pos
  obtain ⟨c1, c2, c3, c4, c5, c6, c7, c8, c9⟩ := hc
  have hx : k.x = 1399 := c1
  have hy : k.y = 254 := c2
  have hmin : k.minValue = 2010 := c4
  have hmax : k.maxValue = 2125 := c5
  have hst : k.snapInterval = 1 := c6
  have hlo : k.minAngle = -135 * (Math.PI / 180) := c8
  have hhi : k.maxAngle = 135 * (Math.PI / 180) := c9
  have hat : axisAtan2 ((254 : ℚ) - 254) (1409 - 1399) = 0 := by
    norm_num [axisAtan2]
  have hcl : k.clampAngle 0 = 0 :=
    RotaryKnob.clampAngle_of_mem k 0 (by rw [hlo]; linarith) (by rw [hhi]; linarith)
  have hraw : (2010 : ℚ) + (0 - -135 * (Math.PI / 180)) /
      (135 * (Math.PI / 180) - -135 * (Math.PI / 180)) * (2125 - 2010) = 4135 / 2 := by
    field_simp
    ring
  rw [hx, hy, hat, hcl]
  unfold RotaryKnob.snappedValue RotaryKnob.clampValue
  simp only [hmin, hmax, hst, hlo, hhi, hraw]
  rw [Math.round_eq_of (4135 / 2 / 1) 2068 (by norm_num) (by norm_num)]
  norm_num

/-! ## The claims on the knob manager -/

/-- Claim C9. For two knobs with arbitrary centres and radii, neither of them
drag-active, and any pointer-down point, after handleMouseDown at most one
knob is drag-active: if the point is inside the year knob, the year knob
becomes drag-active and the length knob is untouched; otherwise the year knob
is untouched and the length knob becomes drag-active exactly when the point
is inside it. -/
theorem handleMouseDown_claims_one_knob (atan2 : ℚ → ℚ → ℚ) (rect : Rect) (e : MouseEvent)
    (s : App) (hy : s.yearKnob.isDragging = false) (hl : s.lengthKnob.isDragging = false) :
    ¬ ((handleMouseDown atan2 rect e s).yearKnob.isDragging = true ∧
        (handleMouseDown atan2 rect e s).lengthKnob.isDragging = true) ∧
      (s.yearKnob.isInside (canvasPoint rect e).1 (canvasPoint rect e).2 = true →
        (handleMouseDown atan2 rect e s).yearKnob.isDragging = true ∧
          (handleMouseDown atan2 rect e s).lengthKnob = s.lengthKnob) ∧
      (s.yearKnob.isInside (canvasPoint rect e).1 (canvasPoint rect e).2 = false →
        (handleMouseDown atan2 rect e s).yearKnob = s.yearKnob ∧
          ((handleMouseDown atan2 rect e s).lengthKnob.isDragging = true ↔
            s.lengthKnob.isInside (canvasPoint rect e).1 (canvasPoint rect e).2 = true)) := by
  have hk := handleMouseDown_knobs atan2 rect e s
  have hky : (handleMouseDown atan2 rect e s).yearKnob =
      (knobsAfter atan2 s.knobs (.down rect e)).1 := congrArg Prod.fst hk
  have hkl : (handleMouseDown atan2 rect e s).lengthKnob =
      (knobsAfter atan2 s.knobs (.down rect e)).2 := congrArg Prod.snd hk
  rw [hky, hkl]
  cases hin : s.yearKnob.isInside (canvasPoint rect e).1 (canvasPoint rect e).2
  · -- the year knob refuses the point
    have hs := RotaryKnob.startDrag_of_not_isInside atan2 s.yearKnob _ _ hin
    have e1 : (knobsAfter atan2 s.knobs (.down rect e)).1 = s.yearKnob := by
      simp only [knobsAfter, App.knobs, hs, Bool.false_eq_true, if_false]
    have e2 : (knobsAfter atan2 s.knobs (.down rect e)).2 =
        (s.lengthKnob.startDrag atan2 (canvasPoint rect e).1 (canvasPoint rect e).2).2.1 := by
      simp only [knobsAfter, App.knobs, hs, Bool.false_eq_true, if_false]
    rw [e1, e2]
    refine ⟨fun h => ?_, fun h => absurd h (by simp), fun _ => ⟨rfl, ?_⟩⟩
    · rw [hy] at h
      exact absurd h.1 (by simp)
    · cases hinl : s.lengthKnob.isInside (canvasPoint rect e).1 (canvasPoint rect e).2
      · rw [RotaryKnob.startDrag_of_not_isInside atan2 s.lengthKnob _ _ hinl]
        simp [hl]
      · rw [RotaryKnob.startDrag_of_isInside atan2 s.lengthKnob _ _ hinl]
        simp only [iff_true]
        exact RotaryKnob.updateFromMouse_isDragging atan2 { s.lengthKnob with isDragging := true } _ _
  · -- the year knob claims the gesture
    have hs := RotaryKnob.startDrag_of_isInside atan2 s.yearKnob _ _ hin
    have e1 : (knobsAfter atan2 s.knobs (.down rect e)).1 =
        (s.yearKnob.startDrag atan2 (canvasPoint rect e).1 (canvasPoint rect e).2).2.1 := by
      simp only [knobsAfter, App.knobs, hs, if_true]
    have e2 : (knobsAfter atan2 s.knobs (.down rect e)).2 = s.lengthKnob := by
      simp only [knobsAfter, App.knobs, hs, if_true]
    rw [e1, e2]
    refine ⟨fun h => ?_, fun _ => ⟨?_, rfl⟩, fun h => absurd h (by simp)⟩
    · rw [hl] at h
      exact absurd h.2 (by simp)
    · rw [hs]
      exact RotaryKnob.updateFromMouse_isDragging atan2 { s.yearKnob with isDragging := true } _ _

/-- Claim C9 on a page whose two knobs have overlapping hit areas, centres
(1399, 254) and (1399, 260), for a pointer-down at (1399, 257), inside both. -/
theorem handleMouseDown_claims_one_knob_witness :
    ¬ ((handleMouseDown axisAtan2 fullRect { clientX := 1399, clientY := 257 }
          { initKnobs true true true true with
            lengthKnob := RotaryKnob.constructor 1399 260 30 0 2 1 true }).yearKnob.isDragging = true ∧
        (handleMouseDown axisAtan2 fullRect { clientX := 1399, clientY := 257 }
          { initKnobs true true true true with
            lengthKnob := RotaryKnob.constructor 1399 260 30 0 2 1 true }).lengthKnob.isDragging
          = true) :=
  (handleMouseDown_claims_one_knob axisAtan2 fullRect { clientX := 1399, clientY := 257 }
    { initKnobs true true true true with
      lengthKnob := RotaryKnob.constructor 1399 260 30 0 2 1 true }
    (by
      show (drawKnobs _).yearKnob.isDragging = false
      rw [drawKnobs_yearKnob]
      rfl)
    rfl).1

/-- Claim C10. While systemPowered is false, every sequence of pointer-down,
pointer-move and pointer-up events leaves the downstream state unchanged
(the sentence-length bounds, the year display, the calls to setYearFromKnob
and to generateAndDisplay) and the system unpowered, while the two knobs take
the states that the methods of the class give them from the pointer. -/
theorem unpowered_events_gated (atan2 : ℚ → ℚ → ℚ) (s : App) (events : List PointerEvent)
    (h : s.systemPowered = false) :
    (runEvents atan2 s events).downstream = s.downstream ∧
      (runEvents atan2 s events).systemPowered = false ∧
      (runEvents atan2 s events).knobs = events.foldl (knobsAfter atan2) s.knobs :=
  ⟨(runEvents_unpowered atan2 events s h).1, (runEvents_unpowered atan2 events s h).2,
    runEvents_knobs atan2 events s⟩

/-- Claim C10 on the page as initKnobs leaves it, unpowered, with the year knob
at 2025: a pointer-down at (1409, 254), inside the year knob, a pointer-move
at the same point and a pointer-up. The downstream state is the initial one
and the year knob has moved to 2068. -/
theorem unpowered_events_gated_witness :
    (runEvents axisAtan2 (initKnobs true true true true)
        [.down fullRect { clientX := 1409, clientY := 254 },
          .move fullRect { clientX := 1409, clientY := 254 }, .up]).downstream =
      (20, 35, none, none, none, [], 0) ∧
    (initKnobs true true true true).yearKnob.currentValue = 2025 ∧
    (runEvents axisAtan2 (initKnobs true true true true)
        [.down fullRect { clientX := 1409, clientY := 254 },
          .move fullRect { clientX := 1409, clientY := 254 }, .up]).yearKnob.currentValue
      = 2068 := by
  have hoff : (initKnobs true true true true).systemPowered = false := by
    show (drawKnobs _).systemPowered = false
    rw [drawKnobs_systemPowered]
  have h := unpowered_events_gated axisAtan2 (initKnobs true true true true)
    [.down fullRect { clientX := 1409, clientY := 254 },
      .move fullRect { clientX := 1409, clientY := 254 }, .up] hoff
  have hyear : (initKnobs true true true true).yearKnob =
      (RotaryKnob.constructor 1399 254 30 2010 2125 1 true).setValue 2025 := by
    show (drawKnobs _).yearKnob = _
    rw [drawKnobs_yearKnob]
  have hcfg0 : (RotaryKnob.constructor 1399 254 30 2010 2125 1 true).SameConfig
      (initKnobs true true true true).yearKnob := by
    rw [hyear]; exact RotaryKnob.setValue_sameConfig _ _
  have hv0 : (initKnobs true true true true).yearKnob.currentValue = 2025 := by
    rw [hyear]
    show RotaryKnob.clampValue _ 2025 = 2025
    exact RotaryKnob.clampValue_of_mem _ _ (by norm_num [RotaryKnob.constructor])
      (by norm_num [RotaryKnob.constructor])
  have hp : canvasPoint fullRect { clientX := 1409, clientY := 254 } = (1409, 254) := by
    simp only [canvasPoint, fullRect]
    norm_num
  -- the pointer-down
  have hin : (initKnobs true true true true).yearKnob.isInside 1409 254 = true := by
    simp only [RotaryKnob.isInside, hcfg0.1, hcfg0.2.1, hcfg0.2.2.1, RotaryKnob.constructor,
      decide_eq_true_iff]
    norm_num
  have hs := RotaryKnob.startDrag_of_isInside axisAtan2 _ _ _ hin
  have hcfg1 := RotaryKnob.SameConfig.trans hcfg0
    (RotaryKnob.startDrag_sameConfig axisAtan2 (initKnobs true true true true).yearKnob 1409 254)
  have hd1 : ((initKnobs true true true true).yearKnob.startDrag
      axisAtan2 1409 254).2.1.isDragging = true := by
    rw [hs]
    exact RotaryKnob.updateFromMouse_isDragging axisAtan2 _ 1409 254
  have hv1 : ((initKnobs true true true true).yearKnob.startDrag
      axisAtan2 1409 254).2.1.currentValue = 2068 := by
    rw [hs]
    have hu := RotaryKnob.updateFromMouse_currentValue axisAtan2
      { (initKnobs true true true true).yearKnob with isDragging := true } 1409 254 rfl
      (by
        show (initKnobs true true true true).yearKnob.minValue ≤
          (initKnobs true true true true).yearKnob.currentValue
        rw [hv0, hcfg0.2.2.2.1]; norm_num [RotaryKnob.constructor])
      (by
        show (initKnobs true true true true).yearKnob.currentValue ≤
          (initKnobs true true true true).yearKnob.maxValue
        rw [hv0, hcfg0.2.2.2.2.1]; norm_num [RotaryKnob.constructor])
    exact hu.trans (yearKnob_value_right_of_centre
      { (initKnobs true true true true).yearKnob with isDragging := true } hcfg0)
  -- the pointer-move at the same point
  have hv2 : ((((initKnobs true true true true).yearKnob.startDrag
      axisAtan2 1409 254).2.1).updateFromMouse axisAtan2 1409 254).1.currentValue = 2068 := by
    rw [RotaryKnob.updateFromMouse_currentValue axisAtan2 _ 1409 254 hd1
      (by rw [hv1, hcfg1.2.2.2.1]; norm_num [RotaryKnob.constructor])
      (by rw [hv1, hcfg1.2.2.2.2.1]; norm_num [RotaryKnob.constructor])]
    exact yearKnob_value_right_of_centre _ hcfg1
  have hfold : (List.foldl (knobsAfter axisAtan2) (initKnobs true true true true).knobs
      [.down fullRect { clientX := 1409, clientY := 254 },
        .move fullRect { clientX := 1409, clientY := 254 }, .up]).1.currentValue = 2068 := by
    simp only [List.foldl, knobsAfter, hp, App.knobs, hs, if_true, RotaryKnob.stopDrag]
    have hd1' := hd1
    simp only [hs] at hd1' hv2
    simp only [hd1', Bool.not_true, Bool.false_and, Bool.false_eq_true, if_false]
    exact hv2
  refine ⟨?_, hv0, ?_⟩
  · rw [h.1]
    show (drawKnobs _).downstream = _
    rw [drawKnobs_downstream]
    rfl
  · have hk : (runEvents axisAtan2 (initKnobs true true true true)
        [.down fullRect { clientX := 1409, clientY := 254 },
          .move fullRect { clientX := 1409, clientY := 254 }, .up]).yearKnob =
        (List.foldl (knobsAfter axisAtan2) (initKnobs true true true true).knobs
          [.down fullRect { clientX := 1409, clientY := 254 },
            .move fullRect { clientX := 1409, clientY := 254 }, .up]).1 :=
      congrArg Prod.fst h.2.2
    rw [hk]
    exact hfold

end Knobs
